import Mathlib

/-!
# Verification of the pushbutan run-correlation, waiting and log-extraction core

Shallow embedding of `src/pushbutan/pushbutan.py` (class `Pushbutan`) and the
parts of `src/pushbutan/cli.py` the claims refer to.

Modelling conventions:
* Python `re.search` over the four fixed patterns of `extract_instance_details`
  is embedded by a small matcher specialised to the shape of those patterns:
  a greedy `.*` prefix (which does not match a newline), followed by literal
  text / `\s+` runs, one capturing group, and optional literal text after the
  group.  Backtracking is modelled exactly where the patterns need it (the
  greedy `.*` prefix, tried longest-first); `\s+` and the captured character
  classes take a maximal munch, which is exact here because each is followed
  by a disjoint character class or the end of the pattern.
* Wall-clock time in `wait_for_instance` advances only at the `time.sleep(30)`
  calls; poll `k` is issued at elapsed time `30 * k` seconds, so poll `k`
  happens iff `30 * k < 60 * timeout_minutes`.
* Network responses are oracles: run listings are `Nat → List Run` (listing
  returned by the k-th correlation attempt), run-status polls are
  `Nat → RunObs`, and the combined log text is a `String` parameter.
* A raised `PushbutanError` is an `Except.error` carrying the message string
  the source builds.
-/

/-- Python `\s` on the ASCII range: space, tab, newline, carriage return,
form feed, vertical tab. -/
def pySpace (c : Char) : Bool :=
  c = ' ' || c = '\t' || c = '\n' || c = '\r' || c = '\x0c' || c = '\x0b'

/-- The character class `[a-f0-9]` of the instance-id pattern. -/
def hexLower (c : Char) : Bool :=
  ('a' ≤ c && c ≤ 'f') || ('0' ≤ c && c ≤ '9')

/-- The character class `\d` (ASCII digits). -/
def pyDigit (c : Char) : Bool :=
  '0' ≤ c && c ≤ '9'

/-- Length of the maximal prefix of `s` whose characters satisfy `f`. -/
def leadCount (f : Char → Bool) : List Char → Nat
  | [] => 0
  | c :: t => if f c then leadCount f t + 1 else 0

/-- Consume the literal `l` from the front of `s`, returning the rest. -/
def stripPre : List Char → List Char → Option (List Char)
  | [], s => some s
  | _ :: _, [] => none
  | c :: cs, d :: ds => if c = d then stripPre cs ds else none

/-- Non-capturing pieces of a pattern: literal text and `\s+`. -/
inductive Tok where
  | lit (l : List Char)
  | ws1
deriving DecidableEq

/-- The single capturing group of each pattern. -/
inductive CapTok where
  /-- `(i-[a-f0-9]+)` -/
  | idHex
  /-- `(\d+\.\d+\.\d+\.\d+)` -/
  | quad
  /-- `(a|b)` for two literal alternatives, tried left to right. -/
  | alt (a b : List Char)
deriving DecidableEq

/-- A pattern of the shape `.*` ++ pre ++ (cap) ++ post, as used by all four
`re.search` calls of `extract_instance_details`. -/
structure Pat where
  pre : List Tok
  cap : CapTok
  post : List Tok

/-- Match the non-capturing tokens at the front of `s`.  `\s+` takes a maximal
munch, which is exact for these patterns (it is always followed by a
non-whitespace character class). -/
def matchToks : List Tok → List Char → Option (List Char)
  | [], s => some s
  | .lit l :: rest, s =>
    match stripPre l s with
    | some s1 => matchToks rest s1
    | none => none
  | .ws1 :: rest, s =>
    let n := leadCount pySpace s
    if n = 0 then none else matchToks rest (s.drop n)

/-- Match the capturing group at the front of `s`, returning the captured
characters and the rest of `s`. -/
def matchCap : CapTok → List Char → Option (List Char × List Char)
  | .idHex, 'i' :: '-' :: t =>
    let n := leadCount hexLower t
    if n = 0 then none else some ('i' :: '-' :: t.take n, t.drop n)
  | .idHex, _ => none
  | .quad, s =>
    let n1 := leadCount pyDigit s
    if n1 = 0 then none else
    match s.drop n1 with
    | '.' :: s1 =>
      let n2 := leadCount pyDigit s1
      if n2 = 0 then none else
      match s1.drop n2 with
      | '.' :: s2 =>
        let n3 := leadCount pyDigit s2
        if n3 = 0 then none else
        match s2.drop n3 with
        | '.' :: s3 =>
          let n4 := leadCount pyDigit s3
          if n4 = 0 then none else
          some (s.take n1 ++ '.' :: s1.take n2 ++ '.' :: s2.take n3 ++
                '.' :: s3.take n4, s3.drop n4)
        | _ => none
      | _ => none
    | _ => none
  | .alt a b, s =>
    match stripPre a s with
    | some r => some (a, r)
    | none =>
      match stripPre b s with
      | some r => some (b, r)
      | none => none

/-- Match the part of the pattern after the `.*` prefix at the very front of
`s`; a successful match returns group 1. -/
def matchTail (p : Pat) (s : List Char) : Option (List Char) :=
  match matchToks p.pre s with
  | none => none
  | some s1 =>
    match matchCap p.cap s1 with
    | none => none
    | some (v, s2) =>
      match matchToks p.post s2 with
      | none => none
      | some _ => some v

/-- Try `f` on `s.drop k`, `s.drop (k-1)`, ..., `s.drop 0`, returning the first
success: the greedy `.*`, tried longest first. -/
def tryDrops (f : List Char → Option (List Char)) (s : List Char) :
    Nat → Option (List Char)
  | 0 => f s
  | k + 1 =>
    match f (s.drop (k + 1)) with
    | some v => some v
    | none => tryDrops f s k

/-- Attempt the whole pattern (greedy `.*` included) with the match starting
exactly at the front of `s`: `.*` may consume any prefix of `s` free of
newlines, longest first. -/
def matchAtPos (p : Pat) (s : List Char) : Option (List Char) :=
  tryDrops (matchTail p) s (leadCount (fun c => !(c = '\n')) s)

/-- `re.search`: scan start positions left to right, returning group 1 of the
match at the first position where the pattern matches. -/
def reSearch (p : Pat) : List Char → Option (List Char)
  | [] => matchAtPos p []
  | c :: t =>
    match matchAtPos p (c :: t) with
    | some v => some v
    | none => reSearch p t

/-- `r'.*INSTANCE_IDS:\s+(i-[a-f0-9]+)'` -/
def instanceIdPat : Pat :=
  ⟨[.lit "INSTANCE_IDS:".toList, .ws1], .idHex, []⟩

/-- `r'.*\[ "(\d+\.\d+\.\d+\.\d+)" \]'` -/
def ipPat : Pat :=
  ⟨[.lit "[ \"".toList], .quad, [.lit "\" ]".toList]⟩

/-- `r'.*PLATFORM:\s+(linux-64|win-64)'` -/
def platformPat : Pat :=
  ⟨[.lit "PLATFORM:".toList, .ws1], .alt "linux-64".toList "win-64".toList, []⟩

/-- `r'.*INSTANCE_TYPE:\s+(g4dn\.4xlarge|p3\.2xlarge)'` -/
def instanceTypePat : Pat :=
  ⟨[.lit "INSTANCE_TYPE:".toList, .ws1],
   .alt "g4dn.4xlarge".toList "p3.2xlarge".toList, []⟩

/-- The all-four-fields result of `extract_instance_details`. -/
structure InstanceDetails where
  instance_id : String
  ip_address : String
  arch : String
  instance_type : String
deriving DecidableEq, Repr

/-- `Pushbutan.extract_instance_details`: run the four searches, raise on the
first missing field (in the source's check order), otherwise return the dict
`{instance_id, ip_address, arch, instance_type}`. -/
def extract_instance_details (logs : String) : Except String InstanceDetails :=
  let instance_id_match := reSearch instanceIdPat logs.toList
  let ip_match := reSearch ipPat logs.toList
  let platform_match := reSearch platformPat logs.toList
  let instance_type_match := reSearch instanceTypePat logs.toList
  match instance_id_match with
  | none => .error "Could not find instance ID in workflow logs"
  | some instance_id =>
    match ip_match with
    | none => .error "Could not find IP address in workflow logs"
    | some ip_address =>
      match platform_match with
      | none => .error "Could not find platform in workflow logs"
      | some platform =>
        match instance_type_match with
        | none => .error "Could not find instance type in workflow logs"
        | some instance_type =>
          .ok ⟨String.mk instance_id, String.mk ip_address,
               String.mk platform, String.mk instance_type⟩

/-- A workflow run as seen in a run listing (`run.actor.login`,
`run.created_at` as seconds, plus the fields the start operation echoes). -/
structure Run where
  id : Nat
  actor : String
  created_at : Int
  status : String
  html_url : String
deriving DecidableEq, Repr

/-- The correlation predicate of the three scan loops:
`run.actor.login == self.username and run.created_at >= start_time`. -/
def runMatch (username : String) (dispatch_time : Int) (r : Run) : Bool :=
  r.actor == username && dispatch_time ≤ r.created_at

/-- The inner `for run in runs` scan: first run of the listing satisfying the
correlation predicate. -/
def findRun (username : String) (dispatch_time : Int) : List Run → Option Run
  | [] => none
  | r :: rs =>
    if runMatch username dispatch_time r then some r
    else findRun username dispatch_time rs

/-- The bounded retry loop shared by `start_dev_instance`, `stop_instance` and
`trigger_codesign`: `k` is the index of the next listing attempt, the second
argument the number of attempts left (20 initially). -/
def correlateFrom (listings : Nat → List Run) (username : String)
    (dispatch_time : Int) (k : Nat) : Nat → Except String Run
  | 0 => .error "Could not find the triggered workflow run after multiple attempts"
  | n + 1 =>
    match findRun username dispatch_time (listings k) with
    | some r => .ok r
    | none => correlateFrom listings username dispatch_time (k + 1) n

/-- Correlation with the source's attempt budget of 20. -/
def correlate (listings : Nat → List Run) (username : String)
    (dispatch_time : Int) : Except String Run :=
  correlateFrom listings username dispatch_time 0 20

/-- One `get_workflow_run` poll result: `run.status` and `run.conclusion`. -/
structure RunObs where
  status : String
  conclusion : Option String
deriving DecidableEq, Repr

/-- Python's rendering of `Optional[str]` inside the f-string
`f"Workflow failed with conclusion: {conclusion}"`. -/
def conclusionRepr : Option String → String
  | none => "None"
  | some c => c

/-- What `wait_for_instance` produces: the parsed `InstanceDetails` dict, the
`{"success": True}` dict, or a raised `PushbutanError` message. -/
inductive WaitResult where
  | details (d : InstanceDetails)
  | successMarker
  | err (msg : String)
deriving DecidableEq, Repr

/-- Message of the timeout `PushbutanError`. -/
def timeoutMsg (timeout_minutes : Int) : String :=
  "Timed out after " ++ toString timeout_minutes ++ " minutes"

/-- The polling loop of `wait_for_instance`: `k` is the index of the next
poll, the last argument the number of polls the timeout still allows.  Each
iteration fetches the run, returns on `completed` (parsing logs when asked),
raises on a non-`success` conclusion, and otherwise sleeps 30 seconds. -/
def waitFrom (polls : Nat → RunObs) (parse_logs : Bool) (logs : String)
    (timeout_minutes : Int) (k : Nat) : Nat → WaitResult
  | 0 => .err (timeoutMsg timeout_minutes)
  | n + 1 =>
    let run := polls k
    if run.status = "completed" then
      if run.conclusion = some "success" then
        if parse_logs then
          match extract_instance_details logs with
          | .ok d => .details d
          | .error m => .err m
        else .successMarker
      else .err ("Workflow failed with conclusion: " ++ conclusionRepr run.conclusion)
    else waitFrom polls parse_logs logs timeout_minutes (k + 1) n

/-- Number of polls the `while time.time() - start_time < timeout` guard
admits: poll `k` is issued at elapsed time `30 * k`, so it happens iff
`30 * k < 60 * timeout_minutes`, i.e. `k < 2 * timeout_minutes`. -/
def pollBudget (timeout_minutes : Int) : Nat :=
  if timeout_minutes ≤ 0 then 0 else (2 * timeout_minutes).toNat

/-- `Pushbutan.wait_for_instance` over the poll oracle and log text. -/
def wait_for_instance (polls : Nat → RunObs) (timeout_minutes : Int)
    (parse_logs : Bool) (logs : String) : WaitResult :=
  waitFrom polls parse_logs logs timeout_minutes 0 (pollBudget timeout_minutes)

/-- `cli.stop`'s wait step: `pb.wait_for_instance(run_id, parse_logs=False)`
with the default 15-minute timeout. -/
def stop_wait (polls : Nat → RunObs) (logs : String) : WaitResult :=
  wait_for_instance polls 15 false logs

/-- The `inputs` dict of `start_dev_instance`. -/
structure DevInstanceInputs where
  arch : String
  instance_type : String
  cuda_version : String
  image_id : String
  branch : String
  lifetime : String
deriving DecidableEq, Repr

/-- The `inputs` dict `start_dev_instance` builds from its arguments. -/
def start_dev_instance_inputs (arch instance_type cuda_version image_id
    branch lifetime : String) : DevInstanceInputs :=
  ⟨arch, instance_type, cuda_version, image_id, branch, lifetime⟩

/-- `Pushbutan.trigger_linux_gpu_instance`: the inputs it dispatches.  Its
parameters are exactly `instance_type`, `branch`, `lifetime`; `arch`,
`cuda_version` and `image_id` are fixed by the call to
`start_dev_instance`. -/
def trigger_linux_gpu_instance (instance_type branch lifetime : String) :
    DevInstanceInputs :=
  start_dev_instance_inputs "linux-64" instance_type "12.4" "latest"
    branch lifetime

/-- `Pushbutan.trigger_windows_gpu_instance`: the inputs it dispatches. -/
def trigger_windows_gpu_instance (instance_type branch lifetime : String) :
    DevInstanceInputs :=
  start_dev_instance_inputs "win-64" instance_type "none" "latest"
    branch lifetime

/-- Abstract side-effecting steps of the dispatch-and-correlate operations. -/
inductive Ev where
  /-- `start_time = datetime.now(timezone.utc)` -/
  | recordDispatchTime
  /-- the `POST .../dispatches` request -/
  | dispatchCall
  /-- a `time.sleep(...)` call -/
  | sleep
  /-- a `list_workflow_runs` request -/
  | listRuns
deriving DecidableEq, Repr

/-- Unconditional prefix of `start_dev_instance` in source order: record
`start_time` (line 71), POST the dispatch (line 74), then the first
iteration of the correlation loop sleeps and lists (lines 84-90). -/
def startDevInstanceTrace : List Ev :=
  [.recordDispatchTime, .dispatchCall, .sleep, .listRuns]

/-- Unconditional prefix of `stop_instance` in source order: POST the
dispatch (line 347), THEN record `start_time` (line 361), then the five
1-second warm-up sleeps (lines 365-366) and the first listing (line 374). -/
def stopInstanceTrace : List Ev :=
  [.dispatchCall, .recordDispatchTime, .sleep, .sleep, .sleep, .sleep, .sleep,
   .listRuns]

/-- Unconditional prefix of `trigger_codesign` in source order: record
`start_time` (line 467), POST the dispatch (line 474), the five warm-up
sleeps (lines 487-488) and the first listing (line 497). -/
def triggerCodesignTrace : List Ev :=
  [.recordDispatchTime, .dispatchCall, .sleep, .sleep, .sleep, .sleep, .sleep,
   .listRuns]

/-- Index of the first occurrence of `e` in a trace (length if absent). -/
def evIndex (e : Ev) : List Ev → Nat
  | [] => 0
  | x :: t => if x = e then 0 else evIndex e t + 1

/-! ## Helper lemmas: correlation -/

theorem runMatch_iff (u : String) (t : Int) (r : Run) :
    runMatch u t r = true ↔ r.actor = u ∧ t ≤ r.created_at := by
  simp [runMatch]

theorem findRun_some_match (u : String) (t : Int) :
    ∀ (l : List Run) (r : Run), findRun u t l = some r → runMatch u t r = true := by
  intro l
  induction l with
  | nil => intro r h; simp [findRun] at h
  | cons x xs ih =>
    intro r h
    by_cases hx : runMatch u t x = true
    · simp [findRun, hx] at h
      exact h ▸ hx
    · simp [findRun, hx] at h
      exact ih r h

theorem findRun_some_of_mem (u : String) (t : Int) :
    ∀ (l : List Run) (r : Run), r ∈ l → runMatch u t r = true →
      ∃ r', findRun u t l = some r' := by
  intro l
  induction l with
  | nil => intro r h; simp at h
  | cons x xs ih =>
    intro r hmem hm
    by_cases hx : runMatch u t x = true
    · exact ⟨x, by simp [findRun, hx]⟩
    · rcases List.mem_cons.mp hmem with hr | hr
      · exact absurd (hr ▸ hm) hx
      · obtain ⟨r', hr'⟩ := ih r hr hm
        exact ⟨r', by simp [findRun, hx, hr']⟩

theorem correlateFrom_ok_match (listings : Nat → List Run) (u : String) (t : Int) :
    ∀ (n k : Nat) (r : Run), correlateFrom listings u t k n = .ok r →
      runMatch u t r = true := by
  intro n
  induction n with
  | zero => intro k r h; simp [correlateFrom] at h
  | succ n ih =>
    intro k r h
    cases hf : findRun u t (listings k) with
    | some r' =>
      simp [correlateFrom, hf] at h
      exact h ▸ findRun_some_match u t (listings k) r' hf
    | none =>
      simp [correlateFrom, hf] at h
      exact ih (k + 1) r h

theorem correlateFrom_exhausted (listings : Nat → List Run) (u : String) (t : Int) :
    ∀ (n k : Nat), (∀ j, j < n → findRun u t (listings (k + j)) = none) →
      correlateFrom listings u t k n =
        .error "Could not find the triggered workflow run after multiple attempts" := by
  intro n
  induction n with
  | zero => intro k _; simp [correlateFrom]
  | succ n ih =>
    intro k h
    have h0 : findRun u t (listings k) = none := by simpa using h 0 (Nat.succ_pos _)
    simp [correlateFrom, h0]
    exact ih (k + 1) fun j hj => by
      have := h (j + 1) (by omega)
      simpa [show k + (j + 1) = k + 1 + j by omega] using this

/-- C1: the correlation scan matches a run iff the run's actor login equals
the authenticated username and its `created_at` is at least the recorded
dispatch time; a run created strictly before the dispatch time is never the
matched run, even with the right actor; and any run the bounded correlation
loop returns satisfies the predicate. -/
theorem c1_correlation_predicate :
    (∀ (u : String) (t : Int) (r : Run),
        runMatch u t r = true ↔ r.actor = u ∧ t ≤ r.created_at)
    ∧ (∀ (u : String) (t : Int) (l : List Run) (r : Run),
        findRun u t l = some r → r.actor = u ∧ t ≤ r.created_at)
    ∧ (∀ (u : String) (t : Int) (l : List Run) (r : Run),
        r ∈ l → r.actor = u → t ≤ r.created_at → ∃ r', findRun u t l = some r')
    ∧ (∀ (u : String) (t : Int) (l : List Run) (r : Run),
        r.created_at < t → findRun u t l ≠ some r)
    ∧ (∀ (listings : Nat → List Run) (u : String) (t : Int) (r : Run),
        correlate listings u t = .ok r → r.actor = u ∧ t ≤ r.created_at) := by
  refine ⟨runMatch_iff, ?_, ?_, ?_, ?_⟩
  · intro u t l r h
    exact (runMatch_iff u t r).mp (findRun_some_match u t l r h)
  · intro u t l r hmem ha hc
    exact findRun_some_of_mem u t l r hmem ((runMatch_iff u t r).mpr ⟨ha, hc⟩)
  · intro u t l r hlt h
    have := (runMatch_iff u t r).mp (findRun_some_match u t l r h)
    omega
  · intro listings u t r h
    exact (runMatch_iff u t r).mp (correlateFrom_ok_match listings u t 20 0 r h)

/-- Witness for C1 at a concrete listing: the run created at time 5 with the
right actor is matched for dispatch time 3, and a run created at time 2 is
never matched. -/
theorem c1_correlation_predicate_witness :
    (⟨7, "alice", 5, "queued", "u"⟩ : Run).actor = "alice"
    ∧ (3 : Int) ≤ (⟨7, "alice", 5, "queued", "u"⟩ : Run).created_at
    ∧ findRun "alice" 3 [⟨7, "alice", 2, "queued", "u"⟩] ≠
        some ⟨7, "alice", 2, "queued", "u"⟩ :=
  ⟨(c1_correlation_predicate.2.1 "alice" 3 [⟨7, "alice", 5, "queued", "u"⟩]
      ⟨7, "alice", 5, "queued", "u"⟩ (by decide)).1,
   (c1_correlation_predicate.2.1 "alice" 3 [⟨7, "alice", 5, "queued", "u"⟩]
      ⟨7, "alice", 5, "queued", "u"⟩ (by decide)).2,
   c1_correlation_predicate.2.2.2.1 "alice" 3 [⟨7, "alice", 2, "queued", "u"⟩]
      ⟨7, "alice", 2, "queued", "u"⟩ (by decide)⟩

/-- C7: when every one of the 20 listing attempts contains no run satisfying
the actor-and-time predicate, correlation fails with the "could not
correlate" error and never returns a run. -/
theorem c7_correlation_exhaustion (listings : Nat → List Run) (u : String)
    (t : Int) (h : ∀ k, k < 20 → findRun u t (listings k) = none) :
    correlate listings u t =
      .error "Could not find the triggered workflow run after multiple attempts"
    ∧ ∀ r, correlate listings u t ≠ .ok r := by
  have he : correlate listings u t =
      .error "Could not find the triggered workflow run after multiple attempts" :=
    correlateFrom_exhausted listings u t 20 0 fun j hj => by
      simpa using h j hj
  refine ⟨he, fun r hr => ?_⟩
  rw [he] at hr
  cases hr

/-- Witness for C7: with every listing empty, correlation errors out. -/
theorem c7_correlation_exhaustion_witness :
    correlate (fun _ => []) "alice" 0 =
      .error "Could not find the triggered workflow run after multiple attempts" :=
  (c7_correlation_exhaustion (fun _ => []) "alice" 0
    (fun k _ => by simp [findRun])).1

/-- C8: the Linux start operation always dispatches `cuda_version = "12.4"`
and the Windows start operation always dispatches `cuda_version = "none"`,
whatever instance type, branch and lifetime the caller passes (the caller has
no cuda parameter to pass). -/
theorem c8_cuda_version_fixed (instance_type branch lifetime : String) :
    (trigger_linux_gpu_instance instance_type branch lifetime).cuda_version = "12.4"
    ∧ (trigger_windows_gpu_instance instance_type branch lifetime).cuda_version = "none" :=
  ⟨rfl, rfl⟩

/-- Witness for C8 at concrete arguments. -/
theorem c8_cuda_version_fixed_witness :
    (trigger_linux_gpu_instance "g4dn.4xlarge" "main" "24").cuda_version = "12.4"
    ∧ (trigger_windows_gpu_instance "p3.2xlarge" "dev" "8").cuda_version = "none" :=
  c8_cuda_version_fixed "g4dn.4xlarge" "main" "24" |>.imp id
    (fun _ => (c8_cuda_version_fixed "p3.2xlarge" "dev" "8").2)

/-- C3: `start_dev_instance` and `trigger_codesign` record the dispatch time
before issuing the dispatch POST, but `stop_instance` issues the dispatch
POST first and records `start_time` only afterwards (pushbutan.py lines 347
and 361), contradicting the claimed order for the stop operation. -/
theorem c3_stop_records_time_after_dispatch :
    evIndex .recordDispatchTime startDevInstanceTrace <
      evIndex .dispatchCall startDevInstanceTrace
    ∧ evIndex .recordDispatchTime triggerCodesignTrace <
      evIndex .dispatchCall triggerCodesignTrace
    ∧ evIndex .dispatchCall stopInstanceTrace <
      evIndex .recordDispatchTime stopInstanceTrace := by
  decide

/-! ## Helper lemmas: the waiter -/

/-- The completed branch of the polling loop, as a function of the observed
run: parse logs on `success` (when asked), raise on any other conclusion. -/
def completedResult (parse_logs : Bool) (logs : String) (ob : RunObs) : WaitResult :=
  if ob.conclusion = some "success" then
    if parse_logs then
      match extract_instance_details logs with
      | .ok d => .details d
      | .error m => .err m
    else .successMarker
  else .err ("Workflow failed with conclusion: " ++ conclusionRepr ob.conclusion)

theorem waitFrom_timeout (polls : Nat → RunObs) (parse : Bool) (logs : String)
    (tm : Int) :
    ∀ (n k : Nat), (∀ j, j < n → (polls (k + j)).status ≠ "completed") →
      waitFrom polls parse logs tm k n = .err (timeoutMsg tm) := by
  intro n
  induction n with
  | zero => intro k _; simp [waitFrom]
  | succ n ih =>
    intro k h
    have h0 : ¬((polls k).status = "completed") := by simpa using h 0 (Nat.succ_pos _)
    simp only [waitFrom, h0, if_false]
    exact ih (k + 1) fun j hj => by
      have := h (j + 1) (by omega)
      simpa [show k + (j + 1) = k + 1 + j by omega] using this

theorem waitFrom_first_completed (polls : Nat → RunObs) (parse : Bool)
    (logs : String) (tm : Int) :
    ∀ (i n k : Nat), i < n → (∀ j, j < i → (polls (k + j)).status ≠ "completed") →
      (polls (k + i)).status = "completed" →
      waitFrom polls parse logs tm k n = completedResult parse logs (polls (k + i)) := by
  intro i
  induction i with
  | zero =>
    intro n k hn _ hc
    cases n with
    | zero => omega
    | succ n =>
      have hc0 : (polls k).status = "completed" := by simpa using hc
      simp only [waitFrom, hc0, if_true]
      simp [completedResult]
  | succ i ih =>
    intro n k hn hall hc
    cases n with
    | zero => omega
    | succ n =>
      have h0 : ¬((polls k).status = "completed") := by
        simpa using hall 0 (Nat.succ_pos _)
      simp only [waitFrom, h0, if_false]
      have := ih n (k + 1) (by omega)
        (fun j hj => by
          have := hall (j + 1) (by omega)
          simpa [show k + (j + 1) = k + 1 + j by omega] using this)
        (by simpa [show k + (i + 1) = k + 1 + i by omega] using hc)
      simpa [show k + 1 + i = k + (i + 1) by omega] using this

theorem waitFrom_success_observed (polls : Nat → RunObs) (parse : Bool)
    (logs : String) (tm : Int) :
    ∀ (n k : Nat),
      ((∃ d, waitFrom polls parse logs tm k n = .details d)
        ∨ waitFrom polls parse logs tm k n = .successMarker) →
      ∃ i, i < n ∧ (polls (k + i)).status = "completed"
        ∧ ∀ j, j < i → (polls (k + j)).status ≠ "completed" := by
  intro n
  induction n with
  | zero =>
    intro k h
    simp [waitFrom] at h
  | succ n ih =>
    intro k h
    by_cases hs : (polls k).status = "completed"
    · exact ⟨0, Nat.succ_pos _, by simpa using hs, fun j hj => by omega⟩
    · have h' : (∃ d, waitFrom polls parse logs tm (k + 1) n = .details d)
          ∨ waitFrom polls parse logs tm (k + 1) n = .successMarker := by
        simpa only [waitFrom, hs, if_false] using h
      obtain ⟨i, hin, hc, hall⟩ := ih (k + 1) h'
      refine ⟨i + 1, by omega, by simpa [show k + (i + 1) = k + 1 + i by omega] using hc,
        fun j hj => ?_⟩
      cases j with
      | zero => simpa using hs
      | succ j =>
        have := hall j (by omega)
        simpa [show k + (j + 1) = k + 1 + j by omega] using this

theorem waitFrom_false_logs_irrel (polls : Nat → RunObs) (tm : Int) :
    ∀ (n k : Nat) (logs logs' : String),
      waitFrom polls false logs tm k n = waitFrom polls false logs' tm k n := by
  intro n
  induction n with
  | zero => intro k logs logs'; simp [waitFrom]
  | succ n ih =>
    intro k logs logs'
    by_cases hs : (polls k).status = "completed"
    · simp [waitFrom, hs]
    · simp only [waitFrom, hs, if_false]
      exact ih (k + 1) logs logs'

theorem waitFrom_false_no_details (polls : Nat → RunObs) (logs : String)
    (tm : Int) :
    ∀ (n k : Nat) (d : InstanceDetails),
      waitFrom polls false logs tm k n ≠ .details d := by
  intro n
  induction n with
  | zero => intro k d; simp [waitFrom]
  | succ n ih =>
    intro k d
    by_cases hs : (polls k).status = "completed"
    · by_cases hc : (polls k).conclusion = some "success" <;>
        simp [waitFrom, hs, hc]
    · simp only [waitFrom, hs, if_false]
      exact ih (k + 1) d

/-- C5: the waiter returns (rather than raises) only after observing a poll
with status `completed`; and on the poll sequence in_progress, in_progress,
completed/success it returns success, with polls 0 and 1 observed as not
completed and poll 2 as the first completed one. -/
theorem c5_waiter_requires_completed :
    (∀ (polls : Nat → RunObs) (tm : Int) (parse : Bool) (logs : String),
        ((∃ d, wait_for_instance polls tm parse logs = .details d)
          ∨ wait_for_instance polls tm parse logs = .successMarker) →
        ∃ i, i < pollBudget tm ∧ (polls i).status = "completed"
          ∧ ∀ j, j < i → (polls j).status ≠ "completed")
    ∧ wait_for_instance
        (fun k => if k < 2 then ⟨"in_progress", none⟩ else ⟨"completed", some "success"⟩)
        15 false "" = .successMarker
    ∧ ((fun k => if k < 2 then (⟨"in_progress", none⟩ : RunObs)
          else ⟨"completed", some "success"⟩) 0).status ≠ "completed"
    ∧ ((fun k => if k < 2 then (⟨"in_progress", none⟩ : RunObs)
          else ⟨"completed", some "success"⟩) 1).status ≠ "completed"
    ∧ ((fun k => if k < 2 then (⟨"in_progress", none⟩ : RunObs)
          else ⟨"completed", some "success"⟩) 2).status = "completed" := by
  refine ⟨?_, ?_, by decide, by decide, by decide⟩
  · intro polls tm parse logs h
    obtain ⟨i, hin, hc, hall⟩ :=
      waitFrom_success_observed polls parse logs tm (pollBudget tm) 0 h
    exact ⟨i, hin, by simpa using hc, fun j hj => by simpa using hall j hj⟩
  · have := waitFrom_first_completed
      (fun k => if k < 2 then (⟨"in_progress", none⟩ : RunObs)
        else ⟨"completed", some "success"⟩) false "" 15 2 (pollBudget 15) 0
      (by decide) (fun j hj => by interval_cases j <;> decide) (by decide)
    simpa [wait_for_instance, completedResult] using this

/-- Witness for C5: the general conjunct applied to the concrete
three-poll sequence. -/
theorem c5_waiter_requires_completed_witness :
    ∃ i, i < pollBudget 15
      ∧ ((fun k => if k < 2 then (⟨"in_progress", none⟩ : RunObs)
            else ⟨"completed", some "success"⟩) i).status = "completed"
      ∧ ∀ j, j < i →
          ((fun k => if k < 2 then (⟨"in_progress", none⟩ : RunObs)
            else ⟨"completed", some "success"⟩) j).status ≠ "completed" :=
  c5_waiter_requires_completed.1
    (fun k => if k < 2 then ⟨"in_progress", none⟩ else ⟨"completed", some "success"⟩)
    15 false "" (Or.inr c5_waiter_requires_completed.2.1)

/-- C6: when the first observed `completed` poll (within the timeout budget)
carries a conclusion other than `success`, the waiter raises "Workflow failed
with conclusion: <conclusion>"; and when no poll within the budget reports
`completed`, it raises the timeout error, whatever the observed statuses. -/
theorem c6_waiter_failure :
    (∀ (polls : Nat → RunObs) (tm : Int) (parse : Bool) (logs : String) (i : Nat),
        i < pollBudget tm → (∀ j, j < i → (polls j).status ≠ "completed") →
        (polls i).status = "completed" → (polls i).conclusion ≠ some "success" →
        wait_for_instance polls tm parse logs =
          .err ("Workflow failed with conclusion: " ++ conclusionRepr (polls i).conclusion))
    ∧ (∀ (polls : Nat → RunObs) (tm : Int) (parse : Bool) (logs : String),
        (∀ i, i < pollBudget tm → (polls i).status ≠ "completed") →
        wait_for_instance polls tm parse logs = .err (timeoutMsg tm)) := by
  constructor
  · intro polls tm parse logs i hin hall hc hnc
    have := waitFrom_first_completed polls parse logs tm i (pollBudget tm) 0 hin
      (fun j hj => by simpa using hall j hj) (by simpa using hc)
    rw [wait_for_instance, this]
    simp [completedResult, hnc]
  · intro polls tm parse logs h
    exact waitFrom_timeout polls parse logs tm (pollBudget tm) 0
      fun j hj => by simpa using h j hj

/-- Witness for C6: a first poll completing with conclusion `failure` raises
the conclusion error; a run stuck at `queued` for a 1-minute budget raises
the timeout error. -/
theorem c6_waiter_failure_witness :
    wait_for_instance (fun _ => ⟨"completed", some "failure"⟩) 15 true "" =
      .err ("Workflow failed with conclusion: " ++
        conclusionRepr ((fun _ => (⟨"completed", some "failure"⟩ : RunObs)) 0).conclusion)
    ∧ wait_for_instance (fun _ => ⟨"queued", none⟩) 1 true "" = .err (timeoutMsg 1) :=
  ⟨c6_waiter_failure.1 (fun _ => ⟨"completed", some "failure"⟩) 15 true "" 0
      (by decide) (fun j hj => absurd hj (by omega)) (by decide) (by decide),
   c6_waiter_failure.2 (fun _ => ⟨"queued", none⟩) 1 true ""
      (fun i _ => by show ("queued" : String) ≠ "completed"; decide)⟩

/-- C9: with log parsing off — as in `cli.stop`, which calls
`wait_for_instance(run_id, parse_logs=False)` — the waiter's result does not
depend on the log text at all (no log retrieval or extraction can influence
it), it can never produce an `InstanceDetails` payload, and when the
correlated run's first completed poll concludes `success` it returns the
`{"success": True}` marker. -/
theorem c9_stop_skips_extraction :
    (∀ (polls : Nat → RunObs) (tm : Int) (logs logs' : String),
        wait_for_instance polls tm false logs = wait_for_instance polls tm false logs')
    ∧ (∀ (polls : Nat → RunObs) (logs logs' : String),
        stop_wait polls logs = stop_wait polls logs')
    ∧ (∀ (polls : Nat → RunObs) (tm : Int) (logs : String) (d : InstanceDetails),
        wait_for_instance polls tm false logs ≠ .details d)
    ∧ (∀ (polls : Nat → RunObs) (logs : String) (i : Nat),
        i < pollBudget 15 → (∀ j, j < i → (polls j).status ≠ "completed") →
        (polls i).status = "completed" → (polls i).conclusion = some "success" →
        stop_wait polls logs = .successMarker) := by
  refine ⟨?_, ?_, ?_, ?_⟩
  · intro polls tm logs logs'
    exact waitFrom_false_logs_irrel polls tm (pollBudget tm) 0 logs logs'
  · intro polls logs logs'
    exact waitFrom_false_logs_irrel polls 15 (pollBudget 15) 0 logs logs'
  · intro polls tm logs d
    exact waitFrom_false_no_details polls logs tm (pollBudget tm) 0 d
  · intro polls logs i hin hall hc hcc
    have := waitFrom_first_completed polls false logs 15 i (pollBudget 15) 0 hin
      (fun j hj => by simpa using hall j hj) (by simpa using hc)
    rw [stop_wait, wait_for_instance, this]
    simp [completedResult, hcc]

/-- Witness for C9: a stop run completing successfully at the first poll
returns the success marker for two different log texts. -/
theorem c9_stop_skips_extraction_witness :
    stop_wait (fun _ => ⟨"completed", some "success"⟩) "INSTANCE_IDS: i-0abc" =
      stop_wait (fun _ => ⟨"completed", some "success"⟩) ""
    ∧ stop_wait (fun _ => ⟨"completed", some "success"⟩) "" = .successMarker :=
  ⟨c9_stop_skips_extraction.2.1 (fun _ => ⟨"completed", some "success"⟩)
      "INSTANCE_IDS: i-0abc" "",
   c9_stop_skips_extraction.2.2.2 (fun _ => ⟨"completed", some "success"⟩) "" 0
      (by decide) (fun j hj => absurd hj (by omega)) (by decide) (by decide)⟩

/-- C10: a non-positive `timeout_minutes` makes the waiter raise the timeout
error immediately: the guard `time.time() - start_time < timeout` is already
false before the first poll, so the result does not depend on the poll
oracle (no status fetch is performed). -/
theorem c10_nonpositive_timeout (polls polls' : Nat → RunObs) (tm : Int)
    (parse parse' : Bool) (logs logs' : String) (h : tm ≤ 0) :
    wait_for_instance polls tm parse logs = .err (timeoutMsg tm)
    ∧ wait_for_instance polls tm parse logs = wait_for_instance polls' tm parse' logs' := by
  have hb : pollBudget tm = 0 := by simp [pollBudget, h]
  constructor
  · rw [wait_for_instance, hb]
    simp [waitFrom]
  · rw [wait_for_instance, wait_for_instance, hb]
    simp [waitFrom]

/-- Witness for C10 at `timeout_minutes = 0`. -/
theorem c10_nonpositive_timeout_witness :
    wait_for_instance (fun _ => ⟨"completed", some "success"⟩) 0 true "" =
      .err (timeoutMsg 0)
    ∧ wait_for_instance (fun _ => ⟨"completed", some "success"⟩) 0 true "" =
        wait_for_instance (fun _ => ⟨"queued", none⟩) 0 false "x" :=
  c10_nonpositive_timeout (fun _ => ⟨"completed", some "success"⟩)
    (fun _ => ⟨"queued", none⟩) 0 true false "" "x" (by decide)

/-- C2 counterexample: on a log containing only the platform marker, three of
the four fields are missing (instance id, IP address, instance type), yet the
failure message names only the instance ID — it does not report exactly which
fields were missing. -/
theorem c2_counterexample :
    extract_instance_details "PLATFORM: linux-64" =
      .error "Could not find instance ID in workflow logs"
    ∧ reSearch ipPat ("PLATFORM: linux-64".toList) = none
    ∧ reSearch instanceTypePat ("PLATFORM: linux-64".toList) = none
    ∧ reSearch platformPat ("PLATFORM: linux-64".toList) = some ("linux-64".toList) :=
  ⟨rfl, by decide, by decide, by decide⟩

/-- C2 (amended): extraction is all-or-nothing — if any of the four searches
finds no match it fails, with an error naming the FIRST missing field in the
source's check order (instance id, then IP address, then platform, then
instance type), and it returns a result only when all four searches match, in
which case the result is exactly the four extracted values. -/
theorem c2_extract_all_or_nothing (logs : String) :
    (extract_instance_details logs =
        .error "Could not find instance ID in workflow logs"
      ↔ reSearch instanceIdPat logs.toList = none)
    ∧ (∀ v1, reSearch instanceIdPat logs.toList = some v1 →
        reSearch ipPat logs.toList = none →
        extract_instance_details logs =
          .error "Could not find IP address in workflow logs")
    ∧ (∀ v1 v2, reSearch instanceIdPat logs.toList = some v1 →
        reSearch ipPat logs.toList = some v2 →
        reSearch platformPat logs.toList = none →
        extract_instance_details logs =
          .error "Could not find platform in workflow logs")
    ∧ (∀ v1 v2 v3, reSearch instanceIdPat logs.toList = some v1 →
        reSearch ipPat logs.toList = some v2 →
        reSearch platformPat logs.toList = some v3 →
        reSearch instanceTypePat logs.toList = none →
        extract_instance_details logs =
          .error "Could not find instance type in workflow logs")
    ∧ (∀ v1 v2 v3 v4, reSearch instanceIdPat logs.toList = some v1 →
        reSearch ipPat logs.toList = some v2 →
        reSearch platformPat logs.toList = some v3 →
        reSearch instanceTypePat logs.toList = some v4 →
        extract_instance_details logs =
          .ok ⟨String.mk v1, String.mk v2, String.mk v3, String.mk v4⟩)
    ∧ (∀ d, extract_instance_details logs = .ok d →
        ∃ v1 v2 v3 v4, reSearch instanceIdPat logs.toList = some v1
          ∧ reSearch ipPat logs.toList = some v2
          ∧ reSearch platformPat logs.toList = some v3
          ∧ reSearch instanceTypePat logs.toList = some v4
          ∧ d = ⟨String.mk v1, String.mk v2, String.mk v3, String.mk v4⟩) := by
  refine ⟨⟨?_, ?_⟩, ?_, ?_, ?_, ?_, ?_⟩
  · intro h
    cases h1 : reSearch instanceIdPat logs.toList with
    | none => rfl
    | some v1 =>
      exfalso
      have h1' : reSearch instanceIdPat logs.data = some v1 := h1
      cases h2 : reSearch ipPat logs.data <;>
      cases h3 : reSearch platformPat logs.data <;>
      cases h4 : reSearch instanceTypePat logs.data <;>
      simp [extract_instance_details, h1', h2, h3, h4] at h
  · intro h1
    have h1' : reSearch instanceIdPat logs.data = none := h1
    simp [extract_instance_details, h1']
  · intro v1 h1 h2
    have h1' : reSearch instanceIdPat logs.data = some v1 := h1
    have h2' : reSearch ipPat logs.data = none := h2
    simp [extract_instance_details, h1', h2']
  · intro v1 v2 h1 h2 h3
    have h1' : reSearch instanceIdPat logs.data = some v1 := h1
    have h2' : reSearch ipPat logs.data = some v2 := h2
    have h3' : reSearch platformPat logs.data = none := h3
    simp [extract_instance_details, h1', h2', h3']
  · intro v1 v2 v3 h1 h2 h3 h4
    have h1' : reSearch instanceIdPat logs.data = some v1 := h1
    have h2' : reSearch ipPat logs.data = some v2 := h2
    have h3' : reSearch platformPat logs.data = some v3 := h3
    have h4' : reSearch instanceTypePat logs.data = none := h4
    simp [extract_instance_details, h1', h2', h3', h4']
  · intro v1 v2 v3 v4 h1 h2 h3 h4
    have h1' : reSearch instanceIdPat logs.data = some v1 := h1
    have h2' : reSearch ipPat logs.data = some v2 := h2
    have h3' : reSearch platformPat logs.data = some v3 := h3
    have h4' : reSearch instanceTypePat logs.data = some v4 := h4
    simp [extract_instance_details, h1', h2', h3', h4', String.mk]
  · intro d hd
    cases h1 : reSearch instanceIdPat logs.data with
    | none => simp [extract_instance_details, h1] at hd
    | some v1 =>
      cases h2 : reSearch ipPat logs.data with
      | none => simp [extract_instance_details, h1, h2] at hd
      | some v2 =>
        cases h3 : reSearch platformPat logs.data with
        | none => simp [extract_instance_details, h1, h2, h3] at hd
        | some v3 =>
          cases h4 : reSearch instanceTypePat logs.data with
          | none => simp [extract_instance_details, h1, h2, h3, h4] at hd
          | some v4 =>
            refine ⟨v1, v2, v3, v4, h1, h2, h3, h4, ?_⟩
            have hok : extract_instance_details logs =
                .ok ⟨String.mk v1, String.mk v2, String.mk v3, String.mk v4⟩ := by
              simp [extract_instance_details, h1, h2, h3, h4, String.mk]
            rw [hok] at hd
            exact (Except.ok.inj hd).symm

/-- Witness for C2: the round-trip log blob with all four markers extracts to
exactly the four literal values. -/
theorem c2_extract_all_or_nothing_witness :
    extract_instance_details
      "INSTANCE_IDS: i-0abc123\n[ \"10.0.0.5\" ]\nPLATFORM: linux-64\nINSTANCE_TYPE: g4dn.4xlarge" =
      .ok ⟨"i-0abc123", "10.0.0.5", "linux-64", "g4dn.4xlarge"⟩ :=
  (c2_extract_all_or_nothing
      "INSTANCE_IDS: i-0abc123\n[ \"10.0.0.5\" ]\nPLATFORM: linux-64\nINSTANCE_TYPE: g4dn.4xlarge").2.2.2.2.1
    "i-0abc123".toList "10.0.0.5".toList "linux-64".toList "g4dn.4xlarge".toList
    (by decide) (by decide) (by decide) (by decide)

/-- C4 counterexample: on a single line containing the `INSTANCE_IDS:` marker
twice, the match at the first occurrence in document order carries `i-aa`
(the tail of the pattern matches there), yet the search extracts `i-bb` from
the second occurrence — the greedy leading `.*` of the pattern prefers the
last marker on the line. -/
theorem c4_counterexample :
    matchTail instanceIdPat ("INSTANCE_IDS: i-aa INSTANCE_IDS: i-bb".toList) =
      some ("i-aa".toList)
    ∧ reSearch instanceIdPat ("INSTANCE_IDS: i-aa INSTANCE_IDS: i-bb".toList) =
        some ("i-bb".toList)
    ∧ ("i-aa".toList : List Char) ≠ "i-bb".toList :=
  ⟨by decide, by decide, by decide⟩

/-- C4 (amended): each field search returns the capture at the leftmost
STARTING POSITION at which the whole pattern matches (Python `re.search`
semantics).  Markers on distinct lines therefore yield the first line in
document order, but when a marker occurs twice on one line the greedy leading
`.*` captures the last occurrence on that line, not the first occurrence in
document order. -/
theorem c4_search_leftmost_position :
    (∀ (p : Pat) (s v : List Char),
        reSearch p s = some v ↔
          ∃ i, matchAtPos p (List.drop i s) = some v
            ∧ ∀ j, j < i → matchAtPos p (List.drop j s) = none)
    ∧ reSearch instanceIdPat ("INSTANCE_IDS: i-aa\nINSTANCE_IDS: i-bb".toList) =
        some ("i-aa".toList)
    ∧ reSearch instanceIdPat ("INSTANCE_IDS: i-aa INSTANCE_IDS: i-bb".toList) =
        some ("i-bb".toList) := by
  refine ⟨?_, by decide, by decide⟩
  intro p s
  induction s with
  | nil =>
    intro v
    constructor
    · intro h
      exact ⟨0, h, fun j hj => absurd hj (Nat.not_lt_zero j)⟩
    · rintro ⟨i, hi, hall⟩
      cases i with
      | zero => exact hi
      | succ i' =>
        have h0 : matchAtPos p ([] : List Char) = none := by
          simpa using hall 0 (Nat.succ_pos _)
        have hi' : matchAtPos p ([] : List Char) = some v := by
          simpa [List.drop_nil] using hi
        rw [h0] at hi'
        cases hi'
  | cons c t ih =>
    intro v
    cases hh : matchAtPos p (c :: t) with
    | some w =>
      constructor
      · intro h
        obtain rfl : w = v := Option.some.inj (by simpa [reSearch, hh] using h)
        exact ⟨0, by simpa using hh, fun j hj => absurd hj (Nat.not_lt_zero j)⟩
      · rintro ⟨i, hi, hall⟩
        cases i with
        | zero =>
          have h2 : some w = some v := hh.symm.trans (by simpa using hi)
          simp [reSearch, hh, Option.some.inj h2]
        | succ i' =>
          have h0 : matchAtPos p (c :: t) = none := by
            simpa using hall 0 (Nat.succ_pos _)
          rw [h0] at hh
          cases hh
    | none =>
      have hr : reSearch p (c :: t) = reSearch p t := by simp [reSearch, hh]
      rw [hr]
      constructor
      · intro h
        obtain ⟨i, hi, hall⟩ := (ih v).mp h
        refine ⟨i + 1, by simpa [List.drop_succ_cons] using hi, fun j hj => ?_⟩
        cases j with
        | zero => simpa using hh
        | succ j' => simpa [List.drop_succ_cons] using hall j' (by omega)
      · rintro ⟨i, hi, hall⟩
        cases i with
        | zero =>
          have h0 : matchAtPos p (c :: t) = some v := by simpa using hi
          rw [hh] at h0
          cases h0
        | succ i' =>
          refine (ih v).mpr ⟨i', by simpa [List.drop_succ_cons] using hi, fun j hj => ?_⟩
          simpa [List.drop_succ_cons] using hall (j + 1) (by omega)

/-- Witness for C4: the leftmost-position characterisation, instantiated on
the duplicate-marker line. -/
theorem c4_search_leftmost_position_witness :
    ∃ i, matchAtPos instanceIdPat
        (List.drop i ("INSTANCE_IDS: i-aa INSTANCE_IDS: i-bb".toList)) =
        some ("i-bb".toList)
      ∧ ∀ j, j < i → matchAtPos instanceIdPat
          (List.drop j ("INSTANCE_IDS: i-aa INSTANCE_IDS: i-bb".toList)) = none :=
  (c4_search_leftmost_position.1 instanceIdPat
      ("INSTANCE_IDS: i-aa INSTANCE_IDS: i-bb".toList) ("i-bb".toList)).mp
    c4_search_leftmost_position.2.2
